import Mathlib

/-!
Shallow embedding of the prediction-ledger core of `bot.py` (SoccerBetBot).

The program keeps its state in four PostgreSQL tables (`users`, `predictions`,
`posted_matches`, `processed_matches`); we model each table as a list of rows
and every SQL statement as the corresponding pure list transformation.
Predictions and match results are the Python strings "home" / "draw" / "away";
we keep them as `String` (the code compares them as strings, and the winner
mapping in `fetch_all_match_results` has a `.lower()` fallback producing
arbitrary strings).  Timestamps are modelled as `Int` (seconds); SQL `INTEGER`
columns as `Int`.

Presentation-layer side effects (Discord embeds, messages) are modelled only
through the reply variants the handlers send; the `weekly_stats` table and the
`vote_data` message-bookkeeping table are not involved in any claim and are
omitted from the state.
-/

namespace SoccerBetBot

/-- A row of the `users` table (`user_id` is the primary key). -/
structure UserRow where
  user_id : String
  username : String
  points : Int
  current_streak : Int
  best_streak : Int
deriving DecidableEq, Repr

/-- A row of the `predictions` table (`UNIQUE(user_id, match_id)`). -/
structure PredRow where
  user_id : String
  match_id : String
  prediction : String
  created_at : Int
deriving DecidableEq, Repr

/-- A row of the `posted_matches` table (the columns the modelled code reads). -/
structure MatchRow where
  match_id : String
  home_team : String
  away_team : String
  match_time : Int
  competition : String
  home_score : Option Int
  away_score : Option Int
  status : String
deriving DecidableEq, Repr

/-- The database state: the four tables the claims are about. -/
structure DBState where
  users : List UserRow
  predictions : List PredRow
  posted_matches : List MatchRow
  processed_matches : List String
deriving DecidableEq, Repr

/-- A leaderboard row, as selected by `get_leaderboard`
(`SELECT user_id, username, points FROM users`). -/
structure LBRow where
  user_id : String
  username : String
  points : Int
deriving DecidableEq, Repr

/-- Codepoint-lexicographic comparison of character lists: the C-collation
`ASC` order PostgreSQL applies to `TEXT` absent a linguistic collation. -/
def str_le_list : List Char → List Char → Bool
  | [], _ => true
  | _ :: _, [] => false
  | a :: as, b :: bs =>
    if a.toNat < b.toNat then true
    else if b.toNat < a.toNat then false
    else str_le_list as bs

/-- Codepoint-lexicographic `≤` on strings. -/
def str_le (a b : String) : Bool := str_le_list a.data b.data

/-- Case-insensitive variant: compare after lowering every character. -/
def str_le_ci (a b : String) : Bool :=
  str_le_list (a.data.map Char.toLower) (b.data.map Char.toLower)

/-- The row order of `ORDER BY points DESC, username ASC` (bytewise string
collation). -/
def lb_le (a b : LBRow) : Prop :=
  b.points < a.points ∨ (a.points = b.points ∧ str_le a.username b.username = true)

instance : DecidableRel lb_le := fun a b => by
  unfold lb_le; infer_instance

/-- `get_leaderboard` (bot.py lines 120-125): all users sorted by
`points DESC, username ASC`.  `ORDER BY` is embedded as a sort with respect to
`lb_le`. -/
def get_leaderboard (st : DBState) : List LBRow :=
  List.insertionSort lb_le (st.users.map fun u => ⟨u.user_id, u.username, u.points⟩)

/-- `upsert_user` (lines 134-143): `INSERT ... ON CONFLICT (user_id) DO UPDATE
SET username = EXCLUDED.username`. -/
def upsert_user (st : DBState) (uid uname : String) : DBState :=
  if st.users.any (fun u => u.user_id == uid) then
    { st with users := st.users.map fun u =>
        if u.user_id == uid then { u with username := uname } else u }
  else
    { st with users := st.users ++ [⟨uid, uname, 0, 0, 0⟩] }

/-- `add_prediction` (lines 145-154): `INSERT ... ON CONFLICT (user_id,
match_id) DO NOTHING`; `created_at` defaults to the current timestamp. -/
def add_prediction (st : DBState) (uid m pred : String) (now : Int) : DBState :=
  if st.predictions.any (fun p => p.user_id == uid && p.match_id == m) then st
  else { st with predictions := st.predictions ++ [⟨uid, m, pred, now⟩] }

/-- `update_prediction` (lines 156-166): `UPDATE predictions SET prediction =
%s WHERE user_id = %s AND match_id = %s`; returns `rowcount > 0`.  Note the
statement updates only the `prediction` column: `created_at` is untouched. -/
def update_prediction (st : DBState) (uid m newPred : String) : DBState × Bool :=
  ({ st with predictions := st.predictions.map fun p =>
      if p.user_id == uid && p.match_id == m then { p with prediction := newPred } else p },
   decide (0 < st.predictions.countP fun p => p.user_id == uid && p.match_id == m))

/-- `get_user_prediction` (lines 168-175). -/
def get_user_prediction (st : DBState) (uid m : String) : Option String :=
  (st.predictions.find? fun p => p.user_id == uid && p.match_id == m).map (·.prediction)

/-- `delete_prediction` (lines 177-183): `DELETE FROM predictions WHERE
user_id = %s AND match_id = %s`; returns `rowcount > 0`. -/
def delete_prediction (st : DBState) (uid m : String) : DBState × Bool :=
  let remaining := st.predictions.filter fun p => !(p.user_id == uid && p.match_id == m)
  ({ st with predictions := remaining }, decide (remaining.length < st.predictions.length))

/-- The per-row effect of `update_user_streak` (lines 185-200): on a correct
result `current_streak + 1` and `best_streak = GREATEST(best_streak,
current_streak + 1)`; otherwise `current_streak = 0`. -/
def streak_step (u : UserRow) (is_correct : Bool) : UserRow :=
  if is_correct then
    { u with current_streak := u.current_streak + 1,
             best_streak := max u.best_streak (u.current_streak + 1) }
  else
    { u with current_streak := 0 }

/-- `update_user_streak` (lines 185-200), applied to the row keyed by
`user_id`. -/
def update_user_streak (st : DBState) (uid : String) (is_correct : Bool) : DBState :=
  { st with users := st.users.map fun u =>
      if u.user_id == uid then streak_step u is_correct else u }

/-- `add_points` (lines 324-329): `UPDATE users SET points = points + %s WHERE
user_id = %s`. -/
def add_points (st : DBState) (uid : String) (n : Int) : DBState :=
  { st with users := st.users.map fun u =>
      if u.user_id == uid then { u with points := u.points + n } else u }

/-- `is_match_processed` (lines 421-426). -/
def is_match_processed (st : DBState) (m : String) : Bool :=
  st.processed_matches.any (· == m)

/-- `mark_match_processed` (lines 428-433): `INSERT ... ON CONFLICT DO
NOTHING`. -/
def mark_match_processed (st : DBState) (m : String) : DBState :=
  if st.processed_matches.any (· == m) then st
  else { st with processed_matches := st.processed_matches ++ [m] }

/-- `update_match_score` (lines 356-365): `UPDATE posted_matches SET
home_score = %s, away_score = %s, status = %s WHERE match_id = %s` —
an unconditional overwrite of whatever was stored. -/
def update_match_score (st : DBState) (m : String) (hs a : Int) (status : String) : DBState :=
  { st with posted_matches := st.posted_matches.map fun r =>
      if r.match_id == m then
        { r with home_score := some hs, away_score := some a, status := status }
      else r }

/-- `get_match_info` (lines 367-375). -/
def get_match_info (st : DBState) (m : String) : Option MatchRow :=
  st.posted_matches.find? (·.match_id == m)

/-! ## Result resolution -/

/-- The raw score object of a feed match record. -/
structure RawScore where
  winner : Option String
  home : Option Int
  away : Option Int
deriving DecidableEq, Repr

/-- A raw match record from the external feed. -/
structure RawMatch where
  id : String
  status : String
  score : RawScore
deriving DecidableEq, Repr

/-- The per-match entry built by `fetch_all_match_results`. -/
structure ResultData where
  result : String
  home_score : Option Int
  away_score : Option Int
deriving DecidableEq, Repr

/-- The `result_map` lookup of `fetch_all_match_results` (line 602):
`{"HOME_TEAM": "home", "AWAY_TEAM": "away", "DRAW": "draw"}` with a
`winner.lower()` fallback for unrecognised values. -/
def result_map (winner : String) : String :=
  if winner == "HOME_TEAM" then "home"
  else if winner == "AWAY_TEAM" then "away"
  else if winner == "DRAW" then "draw"
  else winner.toLower

/-- The per-match resolution of `fetch_all_match_results` (lines 594-607): a
match contributes a result only when its status is `"FINISHED"` and the feed
supplies a (truthy, i.e. non-empty) `winner` field; the result is taken from
the winner field alone — the final scores are carried along but never
consulted. -/
def resolveFinishedMatch (m : RawMatch) : Option ResultData :=
  if m.status == "FINISHED" then
    match m.score.winner with
    | some w => if w == "" then none else some ⟨result_map w, m.score.home, m.score.away⟩
    | none => none
  else none

/-- Outcome derivation from final scores, as in `history_command` (lines
1649-1654): `home` if the home score is greater, `away` if the away score is
greater, else `draw`. -/
def actual_result (home_score away_score : Int) : String :=
  if home_score > away_score then "home"
  else if away_score > home_score then "away"
  else "draw"

/-! ## Vote handling -/

/-- The ephemeral reply `VoteButton.callback` sends (lines 633-690), carrying
the choice the message names. -/
inductive VoteReply where
  | votingEnded
  | alreadyVoted (choice : String)
  | changed (choice : String)
  | voted (choice : String)
deriving DecidableEq, Repr

/-- `VoteButton.callback` (lines 633-690): rejects only when `now >=
kickoff_time`; otherwise replaces or creates the caller's prediction for the
match.  Button categories are the strings "home" / "draw" / "away". -/
def voteCallback (st : DBState) (uid uname m choice : String) (kickoff now : Int) :
    DBState × VoteReply :=
  if now ≥ kickoff then (st, .votingEnded)
  else
    match get_user_prediction st uid m with
    | some existing =>
      if existing == choice then (st, .alreadyVoted choice)
      else
        ((update_prediction (upsert_user st uid uname) uid m choice).1, .changed choice)
    | none =>
      (add_prediction (upsert_user st uid uname) uid m choice now, .voted choice)

/-- The voting-close instant displayed by `post_match` (lines 753-757 and the
footer at line 769): `match_time - timedelta(minutes=10)`. -/
def voting_closes_at (kickoff : Int) : Int := kickoff - 10 * 60

/-- The reply `unpick_command` sends (lines 2080-2122). -/
inductive UnpickReply where
  | matchNotFound
  | matchStarted
  | noPrediction
  | deleted (choice : String)
  | deleteFailed
deriving DecidableEq, Repr

/-- `unpick_command` (lines 2080-2122): rejects unknown matches, matches with
`now >= match_time`, and users without a prediction; otherwise deletes the
prediction. -/
def unpickCommand (st : DBState) (uid m : String) (now : Int) : DBState × UnpickReply :=
  match get_match_info st m with
  | none => (st, .matchNotFound)
  | some info =>
    if now ≥ info.match_time then (st, .matchStarted)
    else
      match get_user_prediction st uid m with
      | none => (st, .noPrediction)
      | some pred =>
        let r := delete_prediction st uid m
        if r.2 then (r.1, .deleted pred) else (r.1, .deleteFailed)

/-! ## Scoring -/

/-- Lines 840-841 of `update_match_results`: write the final score (status
`'FINISHED'`) when both scores are present. -/
def apply_score_update (st : DBState) (m : String) (rd : ResultData) : DBState :=
  match rd.home_score, rd.away_score with
  | some hs, some a => update_match_score st m hs a "FINISHED"
  | _, _ => st

/-- Lines 852-855: a correct predictor gets `add_points(_, 1)` and a correct
streak update (the `record_weekly_stat` write goes to the separate
`weekly_stats` table, which is not part of the modelled state). -/
def award_winner (st : DBState) (uid : String) : DBState :=
  update_user_streak (add_points st uid 1) uid true

/-- Lines 867-869: an incorrect predictor has their streak reset. -/
def award_loser (st : DBState) (uid : String) : DBState :=
  update_user_streak st uid false

/-- The per-match body of the `update_match_results` loop (lines 830-872):
skip if already processed; otherwise store the final score, award one point
and a streak increment to every prediction equal to the result, reset the
streak of every other predictor (`SELECT DISTINCT`), and mark the match
processed. -/
def processMatchResult (st : DBState) (m : String) (rd : ResultData) : DBState :=
  if is_match_processed st m then st
  else
    let st1 := apply_score_update st m rd
    let winners := (st1.predictions.filter fun p =>
        p.match_id == m && p.prediction == rd.result).map (·.user_id)
    let st2 := winners.foldl award_winner st1
    let losers := ((st2.predictions.filter fun p =>
        p.match_id == m && !(p.prediction == rd.result)).map (·.user_id)).dedup
    let st3 := losers.foldl award_loser st2
    mark_match_processed st3 m

/-! ## Derived read-only views used by the claims -/

/-- The points of a user as read through the `users` table (`None` when no row
exists). -/
def pointsOf (st : DBState) (uid : String) : Option Int :=
  (st.users.find? fun u => u.user_id == uid).map (·.points)

/-- Number of prediction rows for a (user, match) pair. -/
def pair_count (st : DBState) (uid m : String) : Nat :=
  st.predictions.countP fun p => p.user_id == uid && p.match_id == m

/-- The stored `created_at` of a (user, match) prediction. -/
def prediction_timestamp (st : DBState) (uid m : String) : Option Int :=
  (st.predictions.find? fun p => p.user_id == uid && p.match_id == m).map (·.created_at)

/-- The `UNIQUE(user_id, match_id)` constraint of the `predictions` table. -/
def PairwiseKeys (l : List PredRow) : Prop :=
  l.Pairwise fun p q => p.user_id ≠ q.user_id ∨ p.match_id ≠ q.match_id

/-- A fold of `voteCallback` states over a list of (choice, time) submissions
by one user for one match. -/
def runVotes (st : DBState) (uid uname m : String) (kickoff : Int)
    (votes : List (String × Int)) : DBState :=
  votes.foldl (fun s v => (voteCallback s uid uname m v.1 kickoff v.2).1) st

/-- Modelled from the spec: the leaderboard order the spec prescribes, with the
tie between equal point totals broken by display name ascending
case-insensitively.  Used only to compare the spec's wording with
`get_leaderboard`. -/
def rank_spec (st : DBState) : List LBRow :=
  List.insertionSort
    (fun a b => b.points < a.points ∨ (a.points = b.points ∧ str_le_ci a.username b.username = true))
    (st.users.map fun u => ⟨u.user_id, u.username, u.points⟩)

instance (l : List PredRow) : Decidable (PairwiseKeys l) := by
  unfold PairwiseKeys; infer_instance

/-! ## Concrete example states (used by witnesses and counterexamples) -/

/-- A scheduled match kicking off at time 1000. -/
def exMatch : MatchRow := ⟨"m1", "H", "A", 1000, "PL", none, none, "SCHEDULED"⟩

/-- A state with one existing prediction (user u1, match m1, choice "home",
created at time 5). -/
def exStV : DBState :=
  ⟨[⟨"u1", "Amy", 0, 0, 0⟩], [⟨"u1", "m1", "home", 5⟩], [exMatch], []⟩

/-- A state with no users and no predictions, one posted match. -/
def exStE : DBState := ⟨[], [], [exMatch], []⟩

/-- A state with two users holding opposite predictions on match m1. -/
def exSt1 : DBState :=
  ⟨[⟨"u1", "Amy", 0, 0, 0⟩, ⟨"u2", "Bo", 0, 0, 0⟩],
   [⟨"u1", "m1", "home", 0⟩, ⟨"u2", "m1", "draw", 0⟩],
   [exMatch], []⟩

/-- A fetched result: home win 2-1. -/
def exRd1 : ResultData := ⟨"home", some 2, some 1⟩

/-- Two users with equal points whose usernames order differently under
case-sensitive and case-insensitive comparison. -/
def exStZA : DBState := ⟨[⟨"u1", "Zed", 10, 0, 0⟩, ⟨"u2", "amy", 10, 0, 0⟩], [], [], []⟩

/-- A finished match already stored with score 2-1. -/
def exStC6 : DBState :=
  ⟨[], [], [⟨"m1", "H", "A", 1000, "PL", some 2, some 1, "FINISHED"⟩], []⟩

/-! ## Generic list lemmas -/

theorem find?_map_eq {α : Type} (f : α → α) (p : α → Bool)
    (hp : ∀ a, p (f a) = p a) :
    ∀ l : List α, (l.map f).find? p = (l.find? p).map f := by
  intro l
  induction l with
  | nil => rfl
  | cons a t ih =>
    cases h : p a with
    | false => simp [List.find?_cons, hp a, h, ih]
    | true => simp [List.find?_cons, hp a, h]

theorem countP_map_eq {α : Type} (f : α → α) (p : α → Bool)
    (hp : ∀ a, p (f a) = p a) (l : List α) :
    (l.map f).countP p = l.countP p := by
  induction l with
  | nil => rfl
  | cons a t ih => simp [List.countP_cons, hp a, ih]

theorem count_map_filter_eq_countP (l : List PredRow) (q : PredRow → Bool) (u : String) :
    ((l.filter q).map (·.user_id)).count u
      = l.countP fun p => q p && (p.user_id == u) := by
  induction l with
  | nil => rfl
  | cons a t ih =>
    cases hq : q a with
    | false => simp [List.filter_cons, hq, List.countP_cons, ih]
    | true => simp [List.filter_cons, hq, List.countP_cons, List.count_cons, ih]

theorem countP_eq_ite_of_key (preds : List PredRow) (pred : PredRow → Bool) (u m : String)
    (himp : ∀ p, pred p = true → p.user_id = u ∧ p.match_id = m)
    (hk : PairwiseKeys preds) :
    preds.countP pred = if preds.any pred then 1 else 0 := by
  induction preds with
  | nil => simp
  | cons p t ih =>
    rw [PairwiseKeys, List.pairwise_cons] at hk
    obtain ⟨h1, h2⟩ := hk
    by_cases hp : pred p = true
    · have hpt : t.countP pred = 0 := by
        rw [List.countP_eq_zero]
        intro q hq hq'
        obtain ⟨hu, hm⟩ := himp p hp
        obtain ⟨hu', hm'⟩ := himp q hq'
        rcases h1 q hq with h | h
        · exact h (hu.trans hu'.symm)
        · exact h (hm.trans hm'.symm)
      simp [List.countP_cons, hp, hpt]
    · have hp' : pred p = false := by simpa using hp
      simp [List.countP_cons, hp', ih h2]

/-! ## State-observation lemmas -/

theorem pointsOf_map_users (st : DBState) (f : UserRow → UserRow)
    (hid : ∀ u, (f u).user_id = u.user_id) (hpts : ∀ u, (f u).points = u.points)
    (uid : String) :
    pointsOf { st with users := st.users.map f } uid = pointsOf st uid := by
  unfold pointsOf
  rw [find?_map_eq f _ (fun a => by simp [hid a])]
  cases h : st.users.find? (fun u => u.user_id == uid) <;> simp [hpts]

theorem find?_users_map (f : UserRow → UserRow) (hid : ∀ u, (f u).user_id = u.user_id)
    (l : List UserRow) (uid : String) :
    (l.map f).find? (fun u => u.user_id == uid) = (l.find? (fun u => u.user_id == uid)).map f :=
  find?_map_eq f _ (fun a => by simp [hid a]) l

theorem pointsOf_add_points (st : DBState) (uid' : String) (n : Int) (uid : String) :
    pointsOf (add_points st uid' n) uid =
      if uid = uid' then (pointsOf st uid).map (· + n) else pointsOf st uid := by
  unfold pointsOf add_points
  dsimp only
  rw [find?_users_map _ (by intro a; by_cases h : a.user_id == uid' <;> simp [h])]
  cases hf : st.users.find? (fun u => u.user_id == uid) with
  | none => by_cases h : uid = uid' <;> simp [h]
  | some r =>
    have hr : r.user_id = uid := by
      have := List.find?_some hf
      simpa using this
    by_cases h : uid = uid'
    · simp [hr, h]
    · have hne : (r.user_id == uid') = false := by simp [hr, h]
      simp [hr, h, hne]

theorem pointsOf_update_user_streak (st : DBState) (uid' : String) (b : Bool) (uid : String) :
    pointsOf (update_user_streak st uid' b) uid = pointsOf st uid := by
  unfold update_user_streak
  apply pointsOf_map_users
  · intro u; by_cases h : u.user_id == uid' <;> cases b <;> simp [streak_step, h]
  · intro u; by_cases h : u.user_id == uid' <;> cases b <;> simp [streak_step, h]

theorem pointsOf_award_winner (st : DBState) (w uid : String) :
    pointsOf (award_winner st w) uid =
      if uid = w then (pointsOf st uid).map (· + 1) else pointsOf st uid := by
  unfold award_winner
  rw [pointsOf_update_user_streak, pointsOf_add_points]

theorem pointsOf_foldl_award (l : List String) (st : DBState) (uid : String) :
    pointsOf (l.foldl award_winner st) uid =
      (pointsOf st uid).map (· + (l.count uid : Int)) := by
  induction l generalizing st with
  | nil => cases h : pointsOf st uid <;> simp [h]
  | cons w t ih =>
    rw [List.foldl_cons, ih, pointsOf_award_winner]
    by_cases h : uid = w
    · subst h
      cases hp : pointsOf st uid <;> simp [hp, List.count_cons]
      omega
    · have hne : (w == uid) = false := by
        simp only [beq_eq_false_iff_ne, ne_eq]
        exact fun e => h e.symm
      cases hp : pointsOf st uid <;> simp [hp, List.count_cons, h, hne]

theorem pointsOf_foldl_loser (l : List String) (st : DBState) (uid : String) :
    pointsOf (l.foldl award_loser st) uid = pointsOf st uid := by
  induction l generalizing st with
  | nil => rfl
  | cons w t ih =>
    rw [List.foldl_cons, ih]
    simp [award_loser, pointsOf_update_user_streak]

theorem pointsOf_apply_score_update (st : DBState) (m : String) (rd : ResultData)
    (uid : String) :
    pointsOf (apply_score_update st m rd) uid = pointsOf st uid := by
  unfold apply_score_update
  rcases rd with ⟨r, hs, a⟩
  cases hs <;> cases a <;> rfl

theorem predictions_apply_score_update (st : DBState) (m : String) (rd : ResultData) :
    (apply_score_update st m rd).predictions = st.predictions := by
  unfold apply_score_update
  rcases rd with ⟨r, hs, a⟩
  cases hs <;> cases a <;> rfl

theorem pointsOf_mark (st : DBState) (m : String) (uid : String) :
    pointsOf (mark_match_processed st m) uid = pointsOf st uid := by
  unfold mark_match_processed pointsOf
  split <;> rfl

theorem is_match_processed_mark (st : DBState) (m : String) :
    is_match_processed (mark_match_processed st m) m = true := by
  unfold mark_match_processed is_match_processed
  split
  · assumption
  · simp

theorem is_match_processed_processMatchResult (st : DBState) (m : String) (rd : ResultData) :
    is_match_processed (processMatchResult st m rd) m = true := by
  unfold processMatchResult
  split
  · assumption
  · exact is_match_processed_mark _ _

theorem processMatchResult_of_processed (st : DBState) (m : String) (rd : ResultData)
    (h : is_match_processed st m = true) :
    processMatchResult st m rd = st := by
  unfold processMatchResult
  rw [if_pos h]

theorem pointsOf_processMatchResult (st : DBState) (m : String) (rd : ResultData)
    (uid : String) (hk : PairwiseKeys st.predictions)
    (hnp : is_match_processed st m = false) :
    pointsOf (processMatchResult st m rd) uid =
      (pointsOf st uid).map fun p => p +
        if st.predictions.any (fun pr =>
            pr.user_id == uid && (pr.match_id == m && pr.prediction == rd.result))
        then 1 else 0 := by
  unfold processMatchResult
  rw [if_neg (by simp [hnp])]
  rw [pointsOf_mark, pointsOf_foldl_loser, pointsOf_foldl_award,
    pointsOf_apply_score_update, count_map_filter_eq_countP,
    predictions_apply_score_update]
  rw [countP_eq_ite_of_key st.predictions _ uid m
    (by
      intro p hp
      rw [Bool.and_eq_true, Bool.and_eq_true] at hp
      exact ⟨by simpa using hp.2, by simpa using hp.1.1⟩) hk]
  have hany : (st.predictions.any fun p =>
        (p.match_id == m && p.prediction == rd.result) && (p.user_id == uid))
      = st.predictions.any fun pr =>
        pr.user_id == uid && (pr.match_id == m && pr.prediction == rd.result) :=
    congrArg st.predictions.any (funext fun p => Bool.and_comm _ _)
  rw [hany]
  cases hp : pointsOf st uid
  · simp
  · by_cases h : (st.predictions.any fun pr =>
        pr.user_id == uid && (pr.match_id == m && pr.prediction == rd.result)) = true <;>
      simp [h]

theorem streak_inv_step (v : UserRow) (b : Bool)
    (h1 : 0 ≤ v.current_streak) (h2 : v.current_streak ≤ v.best_streak) :
    0 ≤ (streak_step v b).current_streak ∧
      (streak_step v b).current_streak ≤ (streak_step v b).best_streak := by
  cases b
  · constructor
    · simp [streak_step]
    · simp [streak_step]
      exact le_trans h1 h2
  · constructor
    · simp [streak_step]
      omega
    · simp [streak_step]

theorem streak_inv_foldl (l : List Bool) (v : UserRow)
    (h1 : 0 ≤ v.current_streak) (h2 : v.current_streak ≤ v.best_streak) :
    0 ≤ (l.foldl streak_step v).current_streak ∧
      (l.foldl streak_step v).current_streak ≤ (l.foldl streak_step v).best_streak := by
  induction l generalizing v with
  | nil => exact ⟨h1, h2⟩
  | cons b t ih =>
    rw [List.foldl_cons]
    obtain ⟨g1, g2⟩ := streak_inv_step v b h1 h2
    exact ih _ g1 g2

/-! ## Claim theorems -/

/-- Claim C1: scoring a match is idempotent — running the result-processing
step twice leaves the state of the first run unchanged; a run for an
already-processed match id is the identity (zero points awarded); and a first
run adds exactly one point to each user whose stored prediction equals the
outcome and none to anyone else. -/
theorem C1_idempotent_scoring (st : DBState) (m : String) (rd rd' : ResultData)
    (uid : String) (hk : PairwiseKeys st.predictions) :
    processMatchResult (processMatchResult st m rd) m rd' = processMatchResult st m rd
    ∧ (is_match_processed st m = true → processMatchResult st m rd = st)
    ∧ (is_match_processed st m = false →
        pointsOf (processMatchResult st m rd) uid =
          (pointsOf st uid).map fun p => p +
            if st.predictions.any (fun pr =>
                pr.user_id == uid && (pr.match_id == m && pr.prediction == rd.result))
            then 1 else 0) :=
  ⟨processMatchResult_of_processed _ m rd' (is_match_processed_processMatchResult st m rd),
   processMatchResult_of_processed st m rd,
   fun h => pointsOf_processMatchResult st m rd uid hk h⟩

theorem C1_idempotent_scoring_witness :
    PairwiseKeys exSt1.predictions
    ∧ processMatchResult (processMatchResult exSt1 "m1" exRd1) "m1" exRd1
        = processMatchResult exSt1 "m1" exRd1
    ∧ (is_match_processed exSt1 "m1" = false →
        pointsOf (processMatchResult exSt1 "m1" exRd1) "u1" =
          (pointsOf exSt1 "u1").map fun p => p +
            if exSt1.predictions.any (fun pr =>
                pr.user_id == "u1" && (pr.match_id == "m1" && pr.prediction == exRd1.result))
            then 1 else 0) :=
  ⟨by decide,
   (C1_idempotent_scoring exSt1 "m1" exRd1 exRd1 "u1" (by decide)).1,
   (C1_idempotent_scoring exSt1 "m1" exRd1 exRd1 "u1" (by decide)).2.2⟩

/-- Claim C2: the spec's ten-minute lock window is displayed but not enforced.
The match embed advertises that voting closes at `kickoff - 10 min`
(`voting_closes_at`), yet `VoteButton.callback` accepts a vote at time 700 for
a match kicking off at 1000 (inside the advertised lock window) and records
the prediction; only `now ≥ kickoff` itself is rejected. -/
theorem C2_lock_window_not_enforced :
    voting_closes_at 1000 ≤ 700
    ∧ (voteCallback exStE "u1" "Amy" "m1" "home" 1000 700).2 = .voted "home"
    ∧ (voteCallback exStE "u1" "Amy" "m1" "home" 1000 700).1.predictions
        = [⟨"u1", "m1", "home", 700⟩]
    ∧ (voteCallback exStE "u1" "Amy" "m1" "home" 1000 1000).2 = .votingEnded := by
  decide

/-- Claim C5: result resolution from final scores — `actual_result` yields
"home" exactly when the home score is greater, "away" exactly when the away
score is greater, "draw" exactly on equality (0-0 included, never an error),
and a raw match whose status is not FINISHED resolves to no result (pending)
regardless of its scores. -/
theorem C5_resolve (hs a : Int) (m : RawMatch) (hm : m.status ≠ "FINISHED") :
    (actual_result hs a = "home" ↔ hs > a)
    ∧ (actual_result hs a = "away" ↔ a > hs)
    ∧ (actual_result hs a = "draw" ↔ hs = a)
    ∧ actual_result 0 0 = "draw"
    ∧ resolveFinishedMatch m = none := by
  refine ⟨?_, ?_, ?_, by decide, ?_⟩
  · unfold actual_result
    split_ifs with h1 h2
    · simpa using h1
    · constructor
      · intro h; exact absurd h (by decide)
      · intro h; exact absurd h h1
    · constructor
      · intro h; exact absurd h (by decide)
      · intro h; exact absurd h h1
  · unfold actual_result
    split_ifs with h1 h2
    · constructor
      · intro h; exact absurd h (by decide)
      · intro h; omega
    · simpa using h2
    · constructor
      · intro h; exact absurd h (by decide)
      · intro h; exact absurd h h2
  · unfold actual_result
    split_ifs with h1 h2
    · constructor
      · intro h; exact absurd h (by decide)
      · intro h; omega
    · constructor
      · intro h; exact absurd h (by decide)
      · intro h; omega
    · constructor
      · intro h; omega
      · intro h; rfl
  · unfold resolveFinishedMatch
    rw [if_neg (by simp [hm])]

theorem C5_resolve_witness :
    (("SCHEDULED" : String) ≠ "FINISHED")
    ∧ (actual_result 2 1 = "home" ↔ (2 : Int) > 1)
    ∧ resolveFinishedMatch ⟨"1", "SCHEDULED", ⟨some "HOME_TEAM", some 2, some 1⟩⟩ = none :=
  ⟨by decide,
   (C5_resolve 2 1 ⟨"1", "SCHEDULED", ⟨some "HOME_TEAM", some 2, some 1⟩⟩ (by decide)).1,
   (C5_resolve 2 1 ⟨"1", "SCHEDULED", ⟨some "HOME_TEAM", some 2, some 1⟩⟩ (by decide)).2.2.2.2⟩

/-- Claim C10: the streak update keeps `best_streak` from decreasing at every
step; a correct result increments `current_streak` and raises `best_streak` to
at least that new value; an incorrect result only resets `current_streak` to
zero, leaving `best_streak` unchanged; and along any update sequence starting
from `current_streak = best_streak = 0` the invariant
`0 ≤ current_streak ≤ best_streak` holds after every update. -/
theorem C10_streak_invariant (u : UserRow) (l : List Bool)
    (hc : u.current_streak = 0) (hb : u.best_streak = 0) :
    (∀ (v : UserRow) (b : Bool), v.best_streak ≤ (streak_step v b).best_streak)
    ∧ (∀ v : UserRow, (streak_step v true).current_streak = v.current_streak + 1
        ∧ (streak_step v true).best_streak = max v.best_streak (v.current_streak + 1)
        ∧ v.current_streak + 1 ≤ (streak_step v true).best_streak)
    ∧ (∀ v : UserRow, (streak_step v false).current_streak = 0
        ∧ (streak_step v false).best_streak = v.best_streak)
    ∧ 0 ≤ (l.foldl streak_step u).current_streak
    ∧ (l.foldl streak_step u).current_streak ≤ (l.foldl streak_step u).best_streak := by
  refine ⟨?_, ?_, ?_, ?_, ?_⟩
  · intro v b
    cases b
    · simp [streak_step]
    · simp [streak_step]
  · intro v
    refine ⟨by simp [streak_step], by simp [streak_step], ?_⟩
    simp [streak_step]
  · intro v
    exact ⟨by simp [streak_step], by simp [streak_step]⟩
  · exact (streak_inv_foldl l u (by omega) (by omega)).1
  · exact (streak_inv_foldl l u (by omega) (by omega)).2

theorem C10_streak_invariant_witness :
    ((⟨"u1", "Amy", 5, 0, 0⟩ : UserRow).current_streak = 0)
    ∧ ([true, true, false].foldl streak_step ⟨"u1", "Amy", 5, 0, 0⟩).current_streak
        ≤ ([true, true, false].foldl streak_step ⟨"u1", "Amy", 5, 0, 0⟩).best_streak :=
  ⟨rfl, (C10_streak_invariant ⟨"u1", "Amy", 5, 0, 0⟩ [true, true, false] rfl rfl).2.2.2.2⟩

/-- Claim C4, counterexample: for an existing "home" prediction created at
time 5, submitting "draw" at time 50 (match open) reports the change but the
stored `created_at` remains 5 — the timestamp is not overwritten with the new
one, and the reply names the new choice, not the previous one. -/
theorem C4_counterexample :
    (voteCallback exStV "u1" "Amy" "m1" "draw" 1000 50).2 = .changed "draw"
    ∧ prediction_timestamp (voteCallback exStV "u1" "Amy" "m1" "draw" 1000 50).1 "u1" "m1"
        = some 5
    ∧ prediction_timestamp (voteCallback exStV "u1" "Amy" "m1" "draw" 1000 50).1 "u1" "m1"
        ≠ some 50 := by
  decide

/-- Claim C6, counterexample: a match already stored as FINISHED 2-1 (a home
win) is silently overwritten to 0-3 (an away win) by a second
`update_match_score` call; no mismatch error exists in the code. -/
theorem C6_counterexample :
    actual_result 2 1 = "home"
    ∧ actual_result 0 3 = "away"
    ∧ (update_match_score exStC6 "m1" 0 3 "FINISHED").posted_matches
        = [⟨"m1", "H", "A", 1000, "PL", some 0, some 3, "FINISHED"⟩] := by
  decide

/-- Claim C7, counterexample: with two users on 10 points named "Zed" and
"amy", `get_leaderboard` (ORDER BY username ASC, bytewise) puts "Zed" first,
while the case-insensitive tie-break the claim prescribes (`rank_spec`) puts
"amy" first. -/
theorem C7_counterexample :
    get_leaderboard exStZA = [⟨"u1", "Zed", 10⟩, ⟨"u2", "amy", 10⟩]
    ∧ rank_spec exStZA = [⟨"u2", "amy", 10⟩, ⟨"u1", "Zed", 10⟩]
    ∧ get_leaderboard exStZA ≠ rank_spec exStZA := by
  decide

/-- Claim C8, counterexample: a FINISHED record whose winner field says
HOME_TEAM but whose scores are 0-3 (an away win by scores) resolves silently
to "home" — the winner field is used and the disagreement with the scores is
not surfaced as any error. -/
theorem C8_counterexample :
    resolveFinishedMatch ⟨"m1", "FINISHED", ⟨some "HOME_TEAM", some 0, some 3⟩⟩
      = some ⟨"home", some 0, some 3⟩
    ∧ actual_result 0 3 = "away" := by
  decide

/-- Claim C9, counterexample: at time 700, inside the claimed lock window of a
match kicking off at 1000 (`kickoff - 10 min = 400 ≤ 700`), `unpick_command`
does not fail with VotingClosed: it deletes the prediction and reports the
deletion. -/
theorem C9_counterexample :
    voting_closes_at 1000 ≤ 700
    ∧ unpickCommand exStV "u1" "m1" 700
        = (⟨[⟨"u1", "Amy", 0, 0, 0⟩], [], [exMatch], []⟩, .deleted "home") := by
  decide

/-! ## Ledger lemmas for voting -/

theorem gup_none_iff (st : DBState) (uid m : String) :
    get_user_prediction st uid m = none ↔ pair_count st uid m = 0 := by
  unfold get_user_prediction pair_count
  rw [Option.map_eq_none', List.find?_eq_none, List.countP_eq_zero]

theorem predictions_upsert_user (st : DBState) (uid uname : String) :
    (upsert_user st uid uname).predictions = st.predictions := by
  unfold upsert_user
  split <;> rfl

theorem pair_count_upsert_user (st : DBState) (uid' uname uid m : String) :
    pair_count (upsert_user st uid' uname) uid m = pair_count st uid m := by
  unfold pair_count
  rw [predictions_upsert_user]

theorem pair_count_add_prediction_of_zero (st : DBState) (uid m c : String) (now : Int)
    (h0 : pair_count st uid m = 0) :
    pair_count (add_prediction st uid m c now) uid m = 1 := by
  unfold pair_count at *
  unfold add_prediction
  have hany : st.predictions.any (fun p => p.user_id == uid && p.match_id == m) = false := by
    rw [Bool.eq_false_iff]
    intro hc
    obtain ⟨p, hp, hpp⟩ := List.any_eq_true.mp hc
    exact (List.countP_eq_zero.mp h0 p hp) hpp
  rw [if_neg (by simp [hany])]
  dsimp only
  rw [List.countP_append, h0]
  simp

theorem pair_count_update_prediction (st : DBState) (uid' m' c uid m : String) :
    pair_count (update_prediction st uid' m' c).1 uid m = pair_count st uid m := by
  unfold pair_count update_prediction
  dsimp only
  exact countP_map_eq _ _
    (fun a => by by_cases h : (a.user_id == uid' && a.match_id == m') = true <;> simp [h]) _

theorem pair_count_voteCallback_of_zero (st : DBState) (uid uname m c : String)
    (kickoff now : Int) (hnow : now < kickoff) (h0 : pair_count st uid m = 0) :
    pair_count (voteCallback st uid uname m c kickoff now).1 uid m = 1 := by
  unfold voteCallback
  rw [if_neg (by omega)]
  rw [(gup_none_iff st uid m).mpr h0]
  dsimp only
  rw [pair_count_add_prediction_of_zero]
  rw [pair_count_upsert_user]
  exact h0

theorem pair_count_voteCallback_of_one (st : DBState) (uid uname m c : String)
    (kickoff now : Int) (hnow : now < kickoff) (h1 : pair_count st uid m = 1) :
    pair_count (voteCallback st uid uname m c kickoff now).1 uid m = 1 := by
  unfold voteCallback
  rw [if_neg (by omega)]
  cases hg : get_user_prediction st uid m with
  | none =>
    rw [gup_none_iff st uid m] at hg
    omega
  | some ex =>
    dsimp only
    cases hc : ex == c
    · simp only [Bool.false_eq_true, if_false]
      rw [pair_count_update_prediction, pair_count_upsert_user]
      exact h1
    · simp only [if_true]
      exact h1

theorem pair_count_runVotes_preserved (uid uname m : String) (kickoff : Int)
    (votes : List (String × Int)) (st : DBState) (h1 : pair_count st uid m = 1)
    (hlock : ∀ v ∈ votes, v.2 < kickoff) :
    pair_count (runVotes st uid uname m kickoff votes) uid m = 1 := by
  induction votes generalizing st with
  | nil => exact h1
  | cons v rest ih =>
    unfold runVotes
    rw [List.foldl_cons]
    exact ih _
      (pair_count_voteCallback_of_one st uid uname m v.1 kickoff v.2
        (hlock v (List.mem_cons_self v rest)) h1)
      (fun w hw => hlock w (List.mem_cons_of_mem v hw))

/-- Claim C3: single prediction per pair — after any nonempty sequence of vote
submissions by one user for one match, all strictly before kickoff, starting
from a state holding no prediction row for that pair, exactly one prediction
row exists for the pair. -/
theorem C3_single_prediction (st : DBState) (uid uname m : String) (kickoff : Int)
    (votes : List (String × Int)) (h0 : pair_count st uid m = 0) (hne : votes ≠ [])
    (hlock : ∀ v ∈ votes, v.2 < kickoff) :
    pair_count (runVotes st uid uname m kickoff votes) uid m = 1 := by
  cases votes with
  | nil => exact absurd rfl hne
  | cons v rest =>
    unfold runVotes
    rw [List.foldl_cons]
    exact pair_count_runVotes_preserved uid uname m kickoff rest _
      (pair_count_voteCallback_of_zero st uid uname m v.1 kickoff v.2
        (hlock v (List.mem_cons_self v rest)) h0)
      (fun w hw => hlock w (List.mem_cons_of_mem v hw))

theorem C3_single_prediction_witness :
    pair_count exStE "u1" "m1" = 0
    ∧ [(("home" : String), (100 : Int)), ("draw", 200), ("draw", 300)] ≠ []
    ∧ pair_count
        (runVotes exStE "u1" "Amy" "m1" 1000 [("home", 100), ("draw", 200), ("draw", 300)])
        "u1" "m1" = 1 :=
  ⟨by decide, by decide,
   C3_single_prediction exStE "u1" "Amy" "m1" 1000
     [("home", 100), ("draw", 200), ("draw", 300)] (by decide) (by decide)
     (by intro v hv; fin_cases hv <;> decide)⟩

/-! ## Vote replacement -/

theorem find?_preds_map (f : PredRow → PredRow)
    (hid : ∀ p, (f p).user_id = p.user_id ∧ (f p).match_id = p.match_id)
    (l : List PredRow) (uid m : String) :
    (l.map f).find? (fun p => p.user_id == uid && p.match_id == m)
      = (l.find? (fun p => p.user_id == uid && p.match_id == m)).map f :=
  find?_map_eq f _ (fun a => by simp [(hid a).1, (hid a).2]) l

/-- Claim C4 (amended): submitting a different choice for an existing
prediction of an open match overwrites the stored choice with the new one,
leaves the stored `created_at` timestamp unchanged, keeps exactly the same
number of rows for the pair, and replies that the vote was changed, naming the
new choice. -/
theorem C4_replace_vote (st : DBState) (uid uname m c c' : String) (kickoff now : Int)
    (hnow : now < kickoff) (hex : get_user_prediction st uid m = some c) (hne : c ≠ c') :
    (voteCallback st uid uname m c' kickoff now).2 = .changed c'
    ∧ get_user_prediction (voteCallback st uid uname m c' kickoff now).1 uid m = some c'
    ∧ prediction_timestamp (voteCallback st uid uname m c' kickoff now).1 uid m
        = prediction_timestamp st uid m
    ∧ pair_count (voteCallback st uid uname m c' kickoff now).1 uid m
        = pair_count st uid m := by
  obtain ⟨r, hr, hrc⟩ := Option.map_eq_some'.mp hex
  have hkey : (r.user_id == uid && r.match_id == m) = true := by
    have := List.find?_some hr
    simpa using this
  have hu : r.user_id = uid := by
    have := hkey
    rw [Bool.and_eq_true, beq_iff_eq, beq_iff_eq] at this
    exact this.1
  have hm2 : r.match_id = m := by
    have := hkey
    rw [Bool.and_eq_true, beq_iff_eq, beq_iff_eq] at this
    exact this.2
  have hcc : (c == c') = false := by
    rw [Bool.eq_false_iff]
    intro hcontra
    exact hne (by simpa using hcontra)
  unfold voteCallback
  rw [if_neg (by omega), hex]
  dsimp only
  rw [hcc]
  simp only [Bool.false_eq_true, if_false]
  refine ⟨?_, ?_, ?_, ?_⟩
  · trivial
  · unfold get_user_prediction update_prediction
    dsimp only
    rw [predictions_upsert_user,
      find?_preds_map _
        (fun p => by by_cases h : (p.user_id == uid && p.match_id == m) = true <;> simp [h])
        st.predictions uid m, hr]
    simp [hu, hm2]
  · unfold prediction_timestamp update_prediction
    dsimp only
    rw [predictions_upsert_user,
      find?_preds_map _
        (fun p => by by_cases h : (p.user_id == uid && p.match_id == m) = true <;> simp [h])
        st.predictions uid m, hr]
    simp [hu, hm2]
  · rw [pair_count_update_prediction, pair_count_upsert_user]

theorem C4_replace_vote_witness :
    ((50 : Int) < 1000 ∧ get_user_prediction exStV "u1" "m1" = some "home"
      ∧ ("home" : String) ≠ "draw")
    ∧ (voteCallback exStV "u1" "Amy" "m1" "draw" 1000 50).2 = .changed "draw"
    ∧ get_user_prediction (voteCallback exStV "u1" "Amy" "m1" "draw" 1000 50).1 "u1" "m1"
        = some "draw" :=
  ⟨by decide,
   (C4_replace_vote exStV "u1" "Amy" "m1" "home" "draw" 1000 50
     (by decide) (by decide) (by decide)).1,
   (C4_replace_vote exStV "u1" "Amy" "m1" "home" "draw" 1000 50
     (by decide) (by decide) (by decide)).2.1⟩

/-! ## Match score overwrite -/

theorem find?_matches_map (f : MatchRow → MatchRow)
    (hid : ∀ r, (f r).match_id = r.match_id) (l : List MatchRow) (m : String) :
    (l.map f).find? (fun r => r.match_id == m)
      = (l.find? (fun r => r.match_id == m)).map f :=
  find?_map_eq f _ (fun a => by simp [hid a]) l

/-- Claim C6 (amended): `update_match_score` unconditionally overwrites the
stored score and status of the match row, whatever outcome was stored before;
there is no AlreadyFinishedMismatch error in the code and the first stored
outcome is silently replaced. -/
theorem C6_overwrite (st : DBState) (m : String) (hs a : Int) (status : String)
    (r : MatchRow) (h : get_match_info st m = some r) :
    get_match_info (update_match_score st m hs a status) m
      = some { r with home_score := some hs, away_score := some a, status := status } := by
  unfold get_match_info at h
  have hkey : (r.match_id == m) = true := by
    have := List.find?_some h
    simpa using this
  have hm2 : r.match_id = m := by simpa using hkey
  unfold get_match_info update_match_score
  dsimp only
  rw [find?_matches_map _
    (fun x => by by_cases hx : (x.match_id == m) = true <;> simp [hx]) st.posted_matches m]
  rw [h]
  simp [hm2]

theorem C6_overwrite_witness :
    get_match_info exStC6 "m1" = some ⟨"m1", "H", "A", 1000, "PL", some 2, some 1, "FINISHED"⟩
    ∧ get_match_info (update_match_score exStC6 "m1" 0 3 "FINISHED") "m1"
        = some ⟨"m1", "H", "A", 1000, "PL", some 0, some 3, "FINISHED"⟩ :=
  ⟨by decide,
   C6_overwrite exStC6 "m1" 0 3 "FINISHED" ⟨"m1", "H", "A", 1000, "PL", some 2, some 1, "FINISHED"⟩
     (by decide)⟩

/-! ## Winner-field precedence -/

/-- Claim C8 (amended): for a FINISHED record with a non-empty winner field,
resolution returns the winner-mapped result regardless of the final scores —
a disagreement between winner and scores is silently resolved in favour of the
winner field; no integrity error is surfaced. -/
theorem C8_winner_precedence (m : RawMatch) (w : String)
    (hst : m.status = "FINISHED") (hw : m.score.winner = some w) (hne : w ≠ "") :
    resolveFinishedMatch m = some ⟨result_map w, m.score.home, m.score.away⟩ := by
  unfold resolveFinishedMatch
  rw [if_pos (by simp [hst]), hw]
  dsimp only
  rw [if_neg (by simp [hne])]

theorem C8_winner_precedence_witness :
    result_map "AWAY_TEAM" = "away"
    ∧ resolveFinishedMatch ⟨"m2", "FINISHED", ⟨some "AWAY_TEAM", some 2, some 0⟩⟩
        = some ⟨result_map "AWAY_TEAM", some 2, some 0⟩ :=
  ⟨rfl,
   C8_winner_precedence ⟨"m2", "FINISHED", ⟨some "AWAY_TEAM", some 2, some 0⟩⟩ "AWAY_TEAM"
     rfl rfl (by decide)⟩

/-! ## Unpick -/

theorem length_filter_lt_of_mem_not {α : Type} (l : List α) (p : α → Bool) (a : α)
    (ha : a ∈ l) (hpa : p a = false) :
    (l.filter p).length < l.length := by
  induction l with
  | nil => cases ha
  | cons b t ih =>
    rcases List.mem_cons.mp ha with rfl | hmem
    · rw [List.filter_cons_of_neg (by simp [hpa])]
      exact Nat.lt_succ_of_le (List.length_filter_le p t)
    · cases hb : p b
      · rw [List.filter_cons_of_neg (by simp [hb])]
        exact Nat.lt_succ_of_le (List.length_filter_le p t)
      · rw [List.filter_cons_of_pos (by simp [hb])]
        simpa using Nat.succ_lt_succ (ih hmem)

theorem delete_prediction_flag (st : DBState) (uid m c : String)
    (h : get_user_prediction st uid m = some c) :
    (delete_prediction st uid m).2 = true := by
  obtain ⟨r, hr, hrc⟩ := Option.map_eq_some'.mp h
  unfold delete_prediction
  rw [decide_eq_true_eq]
  exact length_filter_lt_of_mem_not st.predictions _ r (List.mem_of_find?_eq_some hr)
    (by simp [List.find?_some hr])

theorem pair_count_delete (st : DBState) (uid m : String) :
    pair_count (delete_prediction st uid m).1 uid m = 0 := by
  unfold pair_count delete_prediction
  dsimp only
  rw [List.countP_eq_zero]
  intro p hp
  have h1 := List.of_mem_filter hp
  have h2 : (p.user_id == uid && p.match_id == m) = false := by
    rw [Bool.not_eq_true'] at h1
    exact h1
  simp [h2]

/-- Claim C9 (amended): `unpick_command` rejects with a match-started error
exactly when `now ≥ kickoff` (the same kickoff-only lock rule the vote handler
enforces, not `kickoff - 10 min`), leaving the state unchanged; it fails with
a no-prediction error (state unchanged) when the user holds none; and when the
match is open and a prediction exists it deletes that pair's rows, touching
neither the users table nor the match table, and reports the deleted
choice. -/
theorem C9_unpick (st : DBState) (uid m : String) (now : Int) (info : MatchRow)
    (c : String) (hm : get_match_info st m = some info) :
    (info.match_time ≤ now → unpickCommand st uid m now = (st, .matchStarted))
    ∧ (now < info.match_time → get_user_prediction st uid m = none →
        unpickCommand st uid m now = (st, .noPrediction))
    ∧ (now < info.match_time → get_user_prediction st uid m = some c →
        (unpickCommand st uid m now).2 = .deleted c
        ∧ pair_count (unpickCommand st uid m now).1 uid m = 0
        ∧ (unpickCommand st uid m now).1.users = st.users
        ∧ (unpickCommand st uid m now).1.posted_matches = st.posted_matches) := by
  refine ⟨?_, ?_, ?_⟩
  · intro hle
    unfold unpickCommand
    rw [hm]
    dsimp only
    rw [if_pos hle]
  · intro hlt hg
    unfold unpickCommand
    rw [hm]
    dsimp only
    rw [if_neg (by omega), hg]
  · intro hlt hg
    have hflag := delete_prediction_flag st uid m c hg
    have heq : unpickCommand st uid m now = ((delete_prediction st uid m).1, .deleted c) := by
      unfold unpickCommand
      rw [hm]
      dsimp only
      rw [if_neg (by omega), hg]
      dsimp only
      rw [hflag]
      simp
    rw [heq]
    exact ⟨rfl, pair_count_delete st uid m, rfl, rfl⟩

theorem C9_unpick_witness :
    get_match_info exStV "m1" = some exMatch
    ∧ (unpickCommand exStV "u1" "m1" 50).2 = .deleted "home"
    ∧ pair_count (unpickCommand exStV "u1" "m1" 50).1 "u1" "m1" = 0
    ∧ unpickCommand exStV "u2" "m1" 50 = (exStV, .noPrediction)
    ∧ unpickCommand exStV "u1" "m1" 1500 = (exStV, .matchStarted) :=
  ⟨by decide,
   ((C9_unpick exStV "u1" "m1" 50 exMatch "home" (by decide)).2.2 (by decide) (by decide)).1,
   ((C9_unpick exStV "u1" "m1" 50 exMatch "home" (by decide)).2.2 (by decide) (by decide)).2.1,
   (C9_unpick exStV "u2" "m1" 50 exMatch "home" (by decide)).2.1 (by decide) (by decide),
   (C9_unpick exStV "u1" "m1" 1500 exMatch "home" (by decide)).1 (by decide)⟩

/-! ## Leaderboard ordering -/

theorem str_le_list_total : ∀ x y : List Char,
    str_le_list x y = true ∨ str_le_list y x = true := by
  intro x
  induction x with
  | nil => intro y; left; rfl
  | cons a as ih =>
    intro y
    cases y with
    | nil => right; rfl
    | cons b bs =>
      by_cases h1 : a.toNat < b.toNat
      · left; simp [str_le_list, h1]
      · by_cases h2 : b.toNat < a.toNat
        · right; simp [str_le_list, h2]
        · rcases ih bs with h | h
          · left; simp [str_le_list, h1, h2, h]
          · right; simp [str_le_list, h1, h2, h]

theorem str_le_list_trans : ∀ x y z : List Char,
    str_le_list x y = true → str_le_list y z = true → str_le_list x z = true := by
  intro x
  induction x with
  | nil => intro y z _ _; rfl
  | cons a as ih =>
    intro y z hxy hyz
    cases y with
    | nil => simp [str_le_list] at hxy
    | cons b bs =>
      cases z with
      | nil => simp [str_le_list] at hyz
      | cons c cs =>
        by_cases hab : a.toNat < b.toNat
        · by_cases hbc : b.toNat < c.toNat
          · simp [str_le_list, show a.toNat < c.toNat by omega]
          · by_cases hcb : c.toNat < b.toNat
            · simp [str_le_list, hbc, hcb] at hyz
            · simp [str_le_list, show a.toNat < c.toNat by omega]
        · by_cases hba : b.toNat < a.toNat
          · simp [str_le_list, hab, hba] at hxy
          · simp [str_le_list, hab, hba] at hxy
            by_cases hbc : b.toNat < c.toNat
            · simp [str_le_list, show a.toNat < c.toNat by omega]
            · by_cases hcb : c.toNat < b.toNat
              · simp [str_le_list, hbc, hcb] at hyz
              · simp [str_le_list, hbc, hcb] at hyz
                have h1 : ¬ a.toNat < c.toNat := by omega
                have h2 : ¬ c.toNat < a.toNat := by omega
                simp [str_le_list, h1, h2]
                exact ih bs cs hxy hyz

theorem lb_le_total : ∀ a b : LBRow, lb_le a b ∨ lb_le b a := by
  intro a b
  unfold lb_le
  rcases lt_trichotomy a.points b.points with h | h | h
  · right; left; exact h
  · rcases str_le_list_total a.username.data b.username.data with hs | hs
    · left; right; exact ⟨h, hs⟩
    · right; right; exact ⟨h.symm, hs⟩
  · left; left; exact h

theorem lb_le_trans : ∀ a b c : LBRow, lb_le a b → lb_le b c → lb_le a c := by
  intro a b c hab hbc
  unfold lb_le at *
  rcases hab with h1 | ⟨e1, s1⟩ <;> rcases hbc with h2 | ⟨e2, s2⟩
  · left; omega
  · left; omega
  · left; omega
  · right; exact ⟨e1.trans e2, str_le_list_trans _ _ _ s1 s2⟩

/-- Claim C7 (amended): `get_leaderboard` returns the `(user id, username,
points)` rows sorted by points descending with ties broken by username
ascending in case-SENSITIVE (bytewise) order, as a permutation of the users
table, and the empty list (not an error) when no user exists.  The
case-insensitive tie-break the claim states does not hold (see the
counterexample). -/
theorem C7_leaderboard (st : DBState) :
    (st.users = [] → get_leaderboard st = [])
    ∧ List.Sorted lb_le (get_leaderboard st)
    ∧ (get_leaderboard st).Perm (st.users.map fun u => ⟨u.user_id, u.username, u.points⟩) := by
  haveI : IsTotal LBRow lb_le := ⟨lb_le_total⟩
  haveI : IsTrans LBRow lb_le := ⟨lb_le_trans⟩
  refine ⟨?_, ?_, ?_⟩
  · intro h
    unfold get_leaderboard
    rw [h]
    rfl
  · exact List.sorted_insertionSort lb_le _
  · exact List.perm_insertionSort lb_le _

theorem C7_leaderboard_witness :
    get_leaderboard exStE = []
    ∧ List.Sorted lb_le (get_leaderboard exStZA)
    ∧ (get_leaderboard exStZA).Perm (exStZA.users.map fun u => ⟨u.user_id, u.username, u.points⟩) :=
  ⟨(C7_leaderboard exStE).1 rfl, (C7_leaderboard exStZA).2.1, (C7_leaderboard exStZA).2.2⟩

end SoccerBetBot
